import Mathlib

/-!
Shallow embedding of the inventory-management backend
(`src/backend/src/services/*.py`, `src/backend/src/data/models.py`,
`src/backend/src/api/inventory.py`).

Modelling conventions:
* Machine integers are `Int` (Python ints are unbounded, SQLite integers fit).
* Rows keep only the fields the verified claims mention; string fields
  (names, notes, reference numbers) and timestamps are dropped, since no
  claim refers to them.
* A SQLAlchemy session is a pair of database snapshots: the last committed
  state and the current in-session (flushed but possibly uncommitted) state.
  `commit` publishes the current state, `rollback` restores the committed
  one.  Service methods thread the session explicitly and return
  `Except SvcError` for `raise ValueError` sites, with errors classified by
  the taxonomy of spec section 7.
* `settings.allow_negative_inventory` is passed explicitly as `allowNeg`
  (default configuration: `false`).
-/

/-- Transaction types (`TransactionType` in `models.py`). -/
inductive TxType where
  | tIN
  | tOUT
  | tTRANSFER
  | tADJUSTMENT
deriving DecidableEq, Repr

/-- Error taxonomy of spec section 7, standing in for the `ValueError`
messages raised by the services. -/
inductive SvcError where
  | notFound
  | duplicateKey
  | businessRule
  | insufficientStock
  | invalidArgument
  | negativeInventory
deriving DecidableEq, Repr

/-- `Product` row (fields used by the claims). -/
structure Product where
  id : Nat
  supplierId : Option Nat
  reorderPoint : Int
  isActive : Bool
deriving DecidableEq, Repr

/-- `Supplier` row (fields used by the claims). -/
structure Supplier where
  id : Nat
  leadTimeDays : Int
deriving DecidableEq, Repr

/-- `Location` row (fields used by the claims). -/
structure Location where
  id : Nat
deriving DecidableEq, Repr

/-- `Inventory` row: per (product, location) on-hand and reserved
quantities. -/
structure InvRow where
  productId : Nat
  locationId : Nat
  qoh : Int
  reserved : Int
deriving DecidableEq, Repr

/-- `Transaction` row (append-only ledger entry; reference number, notes,
user id and timestamp omitted). -/
structure Tx where
  productId : Nat
  locationId : Nat
  ttype : TxType
  quantity : Int
deriving DecidableEq, Repr

/-- The database: one list per table. -/
structure DB where
  products : List Product
  suppliers : List Supplier
  locations : List Location
  inventory : List InvRow
  transactions : List Tx
deriving DecidableEq, Repr

/-- Column constraints declared in `models.py`
(`quantity_on_hand: int = Field(ge=0)`, `reserved_quantity: int =
Field(default=0, ge=0)`). -/
def DB.WF (db : DB) : Prop :=
  ∀ i ∈ db.inventory, 0 ≤ i.qoh ∧ 0 ≤ i.reserved

instance (db : DB) : Decidable db.WF := by
  unfold DB.WF
  infer_instance

/-- Primary-key lookup `session.get(Product, id)`. -/
def findProduct (db : DB) (pid : Nat) : Option Product :=
  db.products.find? (fun p => p.id = pid)

/-- Primary-key lookup `session.get(Location, id)`. -/
def findLocation (db : DB) (lid : Nat) : Option Location :=
  db.locations.find? (fun l => l.id = lid)

/-- Primary-key lookup `session.get(Supplier, id)`. -/
def findSupplier (db : DB) (sid : Nat) : Option Supplier :=
  db.suppliers.find? (fun s => s.id = sid)

/-- `InventoryService.get_inventory_by_product_location`: first inventory
row matching the pair. -/
def getInv (l : List InvRow) (pid lid : Nat) : Option InvRow :=
  l.find? (fun i => i.productId = pid ∧ i.locationId = lid)

/-- Write back a (possibly new) inventory row: the ORM mutates the fetched
row in place, so the first row with the same key is replaced; a row that
was absent is inserted (`session.add`). -/
def putInv (l : List InvRow) (i : InvRow) : List InvRow :=
  match l with
  | [] => [i]
  | j :: rest =>
      if j.productId = i.productId ∧ j.locationId = i.locationId then
        i :: rest
      else
        j :: putInv rest i

/-- On-hand quantity recorded for a pair (0 when no row exists). -/
def qohAt (db : DB) (pid lid : Nat) : Int :=
  match getInv db.inventory pid lid with
  | some i => i.qoh
  | none => 0

/-- Reserved quantity recorded for a pair (0 when no row exists). -/
def reservedAt (db : DB) (pid lid : Nat) : Int :=
  match getInv db.inventory pid lid with
  | some i => i.reserved
  | none => 0

/-- Total on-hand of a product summed over all its inventory rows. -/
def sumQoh (pid : Nat) (l : List InvRow) : Int :=
  ((l.filter (fun i => i.productId = pid)).map (fun i => i.qoh)).sum

/-- Total on-hand of a product summed over all locations. -/
def totalOnHand (db : DB) (pid : Nat) : Int :=
  sumQoh pid db.inventory

/-- `InventoryService.get_available_quantity`:
`max(0, quantity_on_hand - reserved_quantity)`, 0 when no row exists. -/
def get_available_quantity (db : DB) (pid lid : Nat) : Int :=
  match getInv db.inventory pid lid with
  | some i => max 0 (i.qoh - i.reserved)
  | none => 0

/-- `InventoryService.get_inventory` with the optional filters; a filter
value of 0 is falsy in Python and is therefore ignored, as in the source
(`if product_id:`). -/
def get_inventory (db : DB) (pid lid : Option Nat) : List InvRow :=
  db.inventory.filter (fun i =>
    (match pid with
     | some p => if p = 0 then true else decide (i.productId = p)
     | none => true)
    &&
    (match lid with
     | some l => if l = 0 then true else decide (i.locationId = l)
     | none => true))

/-- `InventoryService.get_total_available_quantity`: sum of the clamped
available quantity over all rows of the product. -/
def get_total_available_quantity (db : DB) (pid : Nat) : Int :=
  (get_inventory db (some pid) none).foldl
    (fun acc i => acc + max 0 (i.qoh - i.reserved)) 0

/-- `InventoryService.reserve_inventory`.  Returns the success flag and
the committed database (the method commits on success). -/
def reserve_inventory (db : DB) (pid lid : Nat) (q : Int) : Bool × DB :=
  match getInv db.inventory pid lid with
  | none => (false, db)
  | some inv =>
      let available := inv.qoh - inv.reserved
      if available < q then (false, db)
      else
        let inv2 : InvRow := { inv with reserved := inv.reserved + q }
        (true, { db with inventory := putInv db.inventory inv2 })

/-- `InventoryService.release_reservation`. -/
def release_reservation (db : DB) (pid lid : Nat) (q : Int) : Bool × DB :=
  match getInv db.inventory pid lid with
  | none => (false, db)
  | some inv =>
      let inv2 : InvRow := { inv with reserved := max 0 (inv.reserved - q) }
      (true, { db with inventory := putInv db.inventory inv2 })

/-! Session model: SQLAlchemy sessions as a committed snapshot plus the
current in-session state.  `create_transaction` and `update_inventory`
call `session.commit()` themselves; `create_bulk_transactions` calls
`session.rollback()` on failure, and the request-scoped session in
`database.get_session` rolls back on an escaping exception, so the
observable state of a request is always the committed snapshot. -/

structure Session where
  committed : DB
  current : DB
deriving DecidableEq, Repr

def Session.commit (s : Session) : Session :=
  { committed := s.current, current := s.current }

def Session.rollback (s : Session) : Session :=
  { committed := s.committed, current := s.committed }

def Session.fromDB (db : DB) : Session :=
  { committed := db, current := db }

/-- `InventoryUpdate` payload (`models.py`): optional new values for the
two quantity columns; `none` stands for an unset/None field, which the
service skips. -/
structure InventoryUpdate where
  quantity_on_hand : Option Int
  reserved_quantity : Option Int
deriving DecidableEq, Repr

/-- `InventoryService.update_inventory`.  Fetches or creates the row,
applies the supplied fields in declaration order (`quantity_on_hand`
first), rejecting a negative on-hand value unless negative inventory is
allowed — the `reserved_quantity` field has no such guard — then commits.
On the error path the freshly added row (when the row was absent) is
still pending in the session, uncommitted. -/
def update_inventory (allowNeg : Bool) (pid lid : Nat) (u : InventoryUpdate)
    (s : Session) : Except SvcError InvRow × Session :=
  let cur := s.current
  let inv0 : InvRow :=
    match getInv cur.inventory pid lid with
    | some i => i
    | none => { productId := pid, locationId := lid, qoh := 0, reserved := 0 }
  match u.quantity_on_hand with
  | some v =>
      if v < 0 ∧ allowNeg = false then
        (Except.error SvcError.negativeInventory,
          { s with current := { cur with inventory := putInv cur.inventory inv0 } })
      else
        let inv1 : InvRow := { inv0 with qoh := v }
        let inv2 : InvRow :=
          match u.reserved_quantity with
          | some r => { inv1 with reserved := r }
          | none => inv1
        let s2 := Session.commit
          { s with current := { cur with inventory := putInv cur.inventory inv2 } }
        (Except.ok inv2, s2)
  | none =>
      let inv2 : InvRow :=
        match u.reserved_quantity with
        | some r => { inv0 with reserved := r }
        | none => inv0
      let s2 := Session.commit
        { s with current := { cur with inventory := putInv cur.inventory inv2 } }
      (Except.ok inv2, s2)

/-- `TransactionCreate` payload. -/
structure TxCreate where
  product_id : Nat
  location_id : Nat
  transaction_type : TxType
  quantity : Int
deriving DecidableEq, Repr

/-- `TransactionService._validate_transaction`: zero-quantity and
sign-per-type checks, and the available-stock check for negative OUT and
TRANSFER quantities. -/
def validate_transaction (db : DB) (td : TxCreate) : Option SvcError :=
  if td.quantity = 0 then some SvcError.invalidArgument
  else if td.transaction_type = TxType.tIN ∧ td.quantity ≤ 0 then
    some SvcError.invalidArgument
  else if td.transaction_type = TxType.tOUT ∧ 0 ≤ td.quantity then
    some SvcError.invalidArgument
  else if (td.transaction_type = TxType.tOUT ∨ td.transaction_type = TxType.tTRANSFER)
      ∧ td.quantity < 0 then
    if get_available_quantity db td.product_id td.location_id < |td.quantity| then
      some SvcError.insufficientStock
    else none
  else none

/-- `TransactionService._process_inventory_update`: fetch or lazily create
the ledger row (the creation path calls `update_inventory`, which
commits), reject a transaction that would drive on-hand negative unless
negative inventory is allowed, then write the new on-hand quantity
through `update_inventory` (which commits). -/
def process_inventory_update (allowNeg : Bool) (tx : Tx) (s : Session) :
    Except SvcError Unit × Session :=
  let fetched : Except SvcError (InvRow × Session) :=
    match getInv s.current.inventory tx.productId tx.locationId with
    | some i => Except.ok (i, s)
    | none =>
        match update_inventory allowNeg tx.productId tx.locationId
            { quantity_on_hand := some 0, reserved_quantity := some 0 } s with
        | (Except.ok i, s1) => Except.ok (i, s1)
        | (Except.error e, _) => Except.error e
  match fetched with
  | Except.error e => (Except.error e, s)
  | Except.ok (inv, s1) =>
      let newQ := inv.qoh + tx.quantity
      if newQ < 0 ∧ allowNeg = false then
        (Except.error SvcError.negativeInventory, s1)
      else
        match update_inventory allowNeg tx.productId tx.locationId
            { quantity_on_hand := some newQ, reserved_quantity := none } s1 with
        | (Except.ok _, s2) => (Except.ok (), s2)
        | (Except.error e, s2) => (Except.error e, s2)

/-- `TransactionService.create_transaction`: resolve product and location,
validate, append the transaction row (flush), update the ledger, then
commit. -/
def create_transaction (allowNeg : Bool) (td : TxCreate) (s : Session) :
    Except SvcError Tx × Session :=
  match findProduct s.current td.product_id with
  | none => (Except.error SvcError.notFound, s)
  | some _ =>
  match findLocation s.current td.location_id with
  | none => (Except.error SvcError.notFound, s)
  | some _ =>
  match validate_transaction s.current td with
  | some e => (Except.error e, s)
  | none =>
      let tx : Tx :=
        { productId := td.product_id, locationId := td.location_id
          ttype := td.transaction_type, quantity := td.quantity }
      let s1 : Session :=
        { s with current :=
            { s.current with transactions := s.current.transactions ++ [tx] } }
      match process_inventory_update allowNeg tx s1 with
      | (Except.error e, s2) => (Except.error e, s2)
      | (Except.ok _, s2) => (Except.ok tx, Session.commit s2)

/-- `TransactionService.create_bulk_transactions`: apply the items
sequentially; on the first failure, roll the session back and re-raise. -/
def create_bulk_transactions (allowNeg : Bool) (tds : List TxCreate)
    (s : Session) : Except SvcError (List Tx) × Session :=
  match tds with
  | [] => (Except.ok [], s)
  | td :: rest =>
      match create_transaction allowNeg td s with
      | (Except.error e, s1) => (Except.error e, Session.rollback s1)
      | (Except.ok tx, s1) =>
          match create_bulk_transactions allowNeg rest s1 with
          | (Except.error e, s2) => (Except.error e, s2)
          | (Except.ok txs, s2) => (Except.ok (tx :: txs), s2)

/-- `TransactionService.process_stock_shipment`: an OUT transaction with
quantity forced negative. -/
def process_stock_shipment (allowNeg : Bool) (pid lid : Nat) (q : Int)
    (s : Session) : Except SvcError Tx × Session :=
  create_transaction allowNeg
    { product_id := pid, location_id := lid
      transaction_type := TxType.tOUT, quantity := -|q| } s

/-- `TransactionService.process_stock_receipt`: an IN transaction with
quantity forced positive. -/
def process_stock_receipt (allowNeg : Bool) (pid lid : Nat) (q : Int)
    (s : Session) : Except SvcError Tx × Session :=
  create_transaction allowNeg
    { product_id := pid, location_id := lid
      transaction_type := TxType.tIN, quantity := |q| } s

/-- `TransactionService.process_stock_transfer`: reject same-location
transfers, check availability at the source, then run the negative leg at
the source followed by the positive leg at the destination, each through
`create_transaction`. -/
def process_stock_transfer (allowNeg : Bool) (pid fromLid toLid : Nat)
    (q : Int) (s : Session) : Except SvcError (List Tx) × Session :=
  if fromLid = toLid then (Except.error SvcError.invalidArgument, s)
  else if get_available_quantity s.current pid fromLid < q then
    (Except.error SvcError.insufficientStock, s)
  else
    match create_transaction allowNeg
        { product_id := pid, location_id := fromLid
          transaction_type := TxType.tTRANSFER, quantity := -|q| } s with
    | (Except.error e, s1) => (Except.error e, s1)
    | (Except.ok t1, s1) =>
        match create_transaction allowNeg
            { product_id := pid, location_id := toLid
              transaction_type := TxType.tTRANSFER, quantity := |q| } s1 with
        | (Except.error e, s2) => (Except.error e, s2)
        | (Except.ok t2, s2) => (Except.ok [t1, t2], s2)

instance {e a : Type} [DecidableEq e] [DecidableEq a] : DecidableEq (Except e a) := fun x y =>
  match x, y with
  | Except.ok v, Except.ok w =>
      if h : v = w then isTrue (by rw [h])
      else isFalse (by intro hc; cases hc; exact h rfl)
  | Except.error v, Except.error w =>
      if h : v = w then isTrue (by rw [h])
      else isFalse (by intro hc; cases hc; exact h rfl)
  | Except.ok _, Except.error _ => isFalse (by intro hc; cases hc)
  | Except.error _, Except.ok _ => isFalse (by intro hc; cases hc)

/-- Small concrete database used by the witnesses: one product, one
location, one inventory row with 10 on hand and 3 reserved. -/
def dbSmall : DB :=
  { products := [{ id := 1, supplierId := none, reorderPoint := 10, isActive := true }]
    suppliers := []
    locations := [{ id := 1 }]
    inventory := [{ productId := 1, locationId := 1, qoh := 10, reserved := 3 }]
    transactions := [] }

/-- Database with its inventory table replaced. -/
def DB.setInv (db : DB) (l : List InvRow) : DB :=
  { db with inventory := l }

/-- Database with one transaction row appended. -/
def DB.addTx (db : DB) (t : Tx) : DB :=
  { db with transactions := db.transactions ++ [t] }

/-- Concrete database with two locations used by the transfer witness. -/
def dbTwoLoc : DB :=
  { products := [{ id := 1, supplierId := none, reorderPoint := 10, isActive := true }]
    suppliers := []
    locations := [{ id := 1 }, { id := 2 }]
    inventory := [{ productId := 1, locationId := 1, qoh := 10, reserved := 3 }]
    transactions := [] }

/-- `TransactionService.list_transactions` restricted to the product
filter, the only one its embedded callers use (skip 0, limit 50).  A
product id of 0 is falsy in Python, so the filter is skipped; ordering by
timestamp is not modelled (only emptiness is consumed). -/
def list_transactions (db : DB) (pid : Option Nat) : List Tx :=
  (db.transactions.filter (fun t =>
    match pid with
    | some x => if x = 0 then true else decide (t.productId = x)
    | none => true)).take 50

/-- `InventoryService.delete_product_permanently`: refuse when the product
has transactions, then when it has a non-zero inventory quantity;
otherwise drop its inventory rows and the product row and commit. -/
def delete_product_permanently (db : DB) (pid : Nat) : Except SvcError Bool × DB :=
  match findProduct db pid with
  | none => (Except.ok false, db)
  | some _ =>
      if 0 < (list_transactions db (some pid)).length then
        (Except.error SvcError.businessRule, db)
      else if (db.inventory.filter (fun i => decide (i.productId = pid))).any
          (fun i => decide (0 < i.qoh) || decide (0 < i.reserved)) then
        (Except.error SvcError.businessRule, db)
      else
        (Except.ok true,
          { db with
            inventory := db.inventory.filter (fun i => decide (¬ i.productId = pid))
            products := db.products.filter (fun p => decide (¬ p.id = pid)) })

/-- `LocationService.delete_location_permanently`: refuse when the
location has inventory rows with stock, then when it has transactions;
otherwise drop its (all-zero) inventory rows and the location row. -/
def delete_location_permanently (db : DB) (lid : Nat) : Except SvcError Bool × DB :=
  match findLocation db lid with
  | none => (Except.ok false, db)
  | some _ =>
      if 0 < (db.inventory.filter (fun i => decide (i.locationId = lid))).length
          ∧ 0 < (db.inventory.filter
              (fun i => decide (i.locationId = lid) && decide (0 < i.qoh))).length then
        (Except.error SvcError.businessRule, db)
      else if 0 < (db.transactions.filter (fun t => decide (t.locationId = lid))).length then
        (Except.error SvcError.businessRule, db)
      else
        (Except.ok true,
          { db with
            inventory := db.inventory.filter (fun i => decide (¬ i.locationId = lid))
            locations := db.locations.filter (fun l => decide (¬ l.id = lid)) })

/-- `SupplierService.get_supplier_products`. -/
def get_supplier_products (db : DB) (sid : Nat) : List Product :=
  db.products.filter (fun p => decide (p.supplierId = some sid))

/-- `SupplierService.delete_supplier_permanently`: refuse when the
supplier has any products, then (defensively) when any of those products
has transactions; otherwise drop the supplier row. -/
def delete_supplier_permanently (db : DB) (sid : Nat) : Except SvcError Bool × DB :=
  match findSupplier db sid with
  | none => (Except.ok false, db)
  | some _ =>
      if 0 < (get_supplier_products db sid).length then
        (Except.error SvcError.businessRule, db)
      else if ((get_supplier_products db sid).map (fun p => p.id)).any
          (fun x => decide (0 < (list_transactions db (some x)).length)) then
        (Except.error SvcError.businessRule, db)
      else
        (Except.ok true,
          { db with suppliers := db.suppliers.filter (fun s => decide (¬ s.id = sid)) })

/-- Per-product sum of the raw `quantity_on_hand - reserved_quantity`
differences, as computed by the SQL aggregate in
`InventoryService.get_low_stock_products` (no per-location clamping). -/
def sumDiff (db : DB) (pid : Nat) : Int :=
  ((db.inventory.filter (fun i => decide (i.productId = pid))).map
    (fun i => i.qoh - i.reserved)).sum

/-- `InventoryService.get_low_stock_products`: the SQL statement joins
products with the per-product sums over the inventory table (an inner
join, so products without inventory rows are excluded) and keeps active
products whose summed difference is at most the reorder point. -/
def get_low_stock_products (db : DB) : List Product :=
  db.products.filter (fun p =>
    !(db.inventory.filter (fun i => decide (i.productId = p.id))).isEmpty
    && decide (sumDiff db p.id ≤ p.reorderPoint)
    && p.isActive)

/-- One entry of the low-stock alert report (`api/inventory.py`,
identifying fields only). -/
structure Alert where
  productId : Nat
  reorderPoint : Int
  currentAvailable : Int
  shortage : Int
deriving DecidableEq, Repr

/-- `get_low_stock_alerts` (API layer): per flagged product, the clamped
total available quantity and the shortage. -/
def get_low_stock_alerts (db : DB) : List Alert :=
  (get_low_stock_products db).map (fun p =>
    let ta := get_total_available_quantity db p.id
    { productId := p.id, reorderPoint := p.reorderPoint,
      currentAvailable := ta, shortage := max 0 (p.reorderPoint - ta) })

/-- The low-stock membership predicate as the claim states it: active and
clamped total available at most the reorder point (no inventory-row
requirement). -/
def claimLowStock (db : DB) (p : Product) : Prop :=
  p.isActive = true ∧ get_total_available_quantity db p.id ≤ p.reorderPoint

instance (db : DB) (p : Product) : Decidable (claimLowStock db p) := by
  unfold claimLowStock
  infer_instance

/-- Python `round(x, 2)` on the exact rational value: every score the
formula produces is a multiple of 1/20, hence exactly representable at
two decimals, so rounding direction is immaterial. -/
def round2 (x : ℚ) : ℚ :=
  ((round (x * 100) : ℤ) : ℚ) / 100

/-- Activity term of the performance score:
`min(5.0, total_receipts / 10)`. -/
def activity_score (r : Nat) : ℚ :=
  min 5 ((r : ℚ) / 10)

/-- Lead-time term of the performance score:
`max(0, 5.0 - lead_time_days / 10)`. -/
def lead_time_score (lt : Int) : ℚ :=
  max 0 (5 - (lt : ℚ) / 10)

/-- Receipt (IN) transactions on the supplier's products, as queried by
`calculate_supplier_performance`. -/
def receipt_transactions (db : DB) (sid : Nat) : List Tx :=
  db.transactions.filter (fun t =>
    decide (t.productId ∈ (get_supplier_products db sid).map (fun p => p.id))
    && decide (t.ttype = TxType.tIN))

/-- `SupplierService.calculate_supplier_performance`, reduced to the
score: `none` when the supplier id does not resolve (raise), 0 when the
supplier has no products, otherwise the rounded average of the activity
and lead-time terms when there is at least one receipt, else 0. -/
def calculate_supplier_performance (db : DB) (sid : Nat) : Option ℚ :=
  match findSupplier db sid with
  | none => none
  | some s =>
      if (get_supplier_products db sid).isEmpty then some 0
      else
        some (round2
          (if 0 < (receipt_transactions db sid).length then
            (activity_score (receipt_transactions db sid).length
              + lead_time_score s.leadTimeDays) / 2
          else 0))

/-- The performance-score formula exactly as the claim states it: the
rounded average of the activity and lead-time terms, with no
zero-receipts special case. -/
def claimPerformanceScore (r : Nat) (lt : Int) : ℚ :=
  round2 ((min 5 ((r : ℚ) / 10) + max 0 (5 - (lt : ℚ) / 10)) / 2)

/-- Concrete database for the supplier-performance claims: one supplier
with lead time 10 days, one product of that supplier, no transactions. -/
def dbPerf : DB :=
  { products := [{ id := 1, supplierId := some 1, reorderPoint := 10, isActive := true }]
    suppliers := [{ id := 1, leadTimeDays := 10 }]
    locations := [{ id := 1 }]
    inventory := []
    transactions := [] }

/-- Same database with one receipt transaction. -/
def dbPerfIn : DB :=
  { dbPerf with
    transactions := [{ productId := 1, locationId := 1,
                       ttype := TxType.tIN, quantity := 5 }] }

/-- Concrete database with an active product that has no inventory rows
at all. -/
def dbNoInv : DB :=
  { products := [{ id := 1, supplierId := none, reorderPoint := 10, isActive := true }]
    suppliers := []
    locations := []
    inventory := []
    transactions := [] }

/-! Basic lemmas about `getInv` and `putInv`. -/

theorem getInv_mem_key {l : List InvRow} {pid lid : Nat} {i : InvRow}
    (h : getInv l pid lid = some i) :
    i ∈ l ∧ i.productId = pid ∧ i.locationId = lid := by
  unfold getInv at h
  have hm := List.mem_of_find?_eq_some h
  have hp := List.find?_some h
  simp only [decide_eq_true_eq] at hp
  exact ⟨hm, hp⟩

theorem getInv_putInv_same {l : List InvRow} {i : InvRow} {pid lid : Nat}
    (hp : i.productId = pid) (hl : i.locationId = lid) :
    getInv (putInv l i) pid lid = some i := by
  induction l with
  | nil =>
      simp [putInv, getInv, List.find?, hp, hl]
  | cons j rest ih =>
      unfold putInv
      by_cases hj : j.productId = i.productId ∧ j.locationId = i.locationId
      · simp only [if_pos hj]
        simp [getInv, List.find?, hp, hl]
      · simp only [if_neg hj]
        have hjk : ¬(j.productId = pid ∧ j.locationId = lid) := by
          intro hc
          exact hj ⟨hc.1.trans hp.symm, hc.2.trans hl.symm⟩
        unfold getInv at ih ⊢
        simp only [List.find?]
        have : (decide (j.productId = pid ∧ j.locationId = lid)) = false := by
          simp [hjk]
        rw [this]
        exact ih

theorem getInv_putInv_other {l : List InvRow} {i : InvRow} {pid lid : Nat}
    (h : ¬(i.productId = pid ∧ i.locationId = lid)) :
    getInv (putInv l i) pid lid = getInv l pid lid := by
  induction l with
  | nil =>
      unfold putInv getInv
      simp only [List.find?, List.find?_nil]
      have : (decide (i.productId = pid ∧ i.locationId = lid)) = false := by
        simp [h]
      rw [this]
  | cons j rest ih =>
      unfold putInv
      by_cases hj : j.productId = i.productId ∧ j.locationId = i.locationId
      · simp only [if_pos hj]
        have hjk : ¬(j.productId = pid ∧ j.locationId = lid) := by
          intro hc
          exact h ⟨hj.1.symm.trans hc.1, hj.2.symm.trans hc.2⟩
        unfold getInv
        simp only [List.find?]
        have h1 : (decide (i.productId = pid ∧ i.locationId = lid)) = false := by
          simp [h]
        have h2 : (decide (j.productId = pid ∧ j.locationId = lid)) = false := by
          simp [hjk]
        rw [h1, h2]
      · simp only [if_neg hj]
        unfold getInv at ih ⊢
        simp only [List.find?]
        cases hd : decide (j.productId = pid ∧ j.locationId = lid) with
        | false => exact ih
        | true => rfl

theorem reservedAt_putInv_same (db : DB) (i : InvRow) (pid lid : Nat)
    (hp : i.productId = pid) (hl : i.locationId = lid) :
    reservedAt { db with inventory := putInv db.inventory i } pid lid
      = i.reserved := by
  unfold reservedAt
  simp only
  rw [getInv_putInv_same hp hl]

theorem qohAt_putInv_same (db : DB) (i : InvRow) (pid lid : Nat)
    (hp : i.productId = pid) (hl : i.locationId = lid) :
    qohAt { db with inventory := putInv db.inventory i } pid lid = i.qoh := by
  unfold qohAt
  simp only
  rw [getInv_putInv_same hp hl]

/-- C6: for an existing inventory row and q ≥ 1, reserving more than the
available quantity fails and leaves the database unchanged; reserving
q ≤ available succeeds, increments reserved_quantity by exactly q and
leaves quantity_on_hand unchanged. -/
theorem reserve_inventory_spec (db : DB) (pid lid : Nat) (q : Int)
    (inv : InvRow) (hrow : getInv db.inventory pid lid = some inv)
    (hq : 1 ≤ q) :
    (max 0 (inv.qoh - inv.reserved) < q →
      reserve_inventory db pid lid q = (false, db)) ∧
    (q ≤ max 0 (inv.qoh - inv.reserved) →
      (reserve_inventory db pid lid q).1 = true ∧
      reservedAt (reserve_inventory db pid lid q).2 pid lid
        = reservedAt db pid lid + q ∧
      qohAt (reserve_inventory db pid lid q).2 pid lid = qohAt db pid lid) := by
  obtain ⟨-, hkp, hkl⟩ := getInv_mem_key hrow
  have hres : reservedAt db pid lid = inv.reserved := by
    unfold reservedAt
    rw [hrow]
  have hqoh : qohAt db pid lid = inv.qoh := by
    unfold qohAt
    rw [hrow]
  constructor
  · intro hlt
    have hlt' : inv.qoh - inv.reserved < q := by
      rcases le_total 0 (inv.qoh - inv.reserved) with h0 | h0
      · rwa [max_eq_right h0] at hlt
      · omega
    unfold reserve_inventory
    rw [hrow]
    simp only [if_pos hlt']
  · intro hle
    have hge : ¬(inv.qoh - inv.reserved < q) := by
      rcases le_total 0 (inv.qoh - inv.reserved) with h0 | h0
      · rw [max_eq_right h0] at hle
        omega
      · rw [max_eq_left h0] at hle
        omega
    unfold reserve_inventory
    rw [hrow]
    simp only [if_neg hge]
    refine ⟨trivial, ?_, ?_⟩
    · rw [hres]
      exact reservedAt_putInv_same db { inv with reserved := inv.reserved + q }
        pid lid hkp hkl
    · rw [hqoh]
      exact qohAt_putInv_same db { inv with reserved := inv.reserved + q }
        pid lid hkp hkl

/-- Witness for C6 at a concrete input: reserving 5 of 7 available
succeeds and moves reserved from 3 to 8. -/
theorem reserve_inventory_spec_witness :
    (reserve_inventory dbSmall 1 1 5).1 = true ∧
    reservedAt (reserve_inventory dbSmall 1 1 5).2 1 1
      = reservedAt dbSmall 1 1 + 5 ∧
    qohAt (reserve_inventory dbSmall 1 1 5).2 1 1 = qohAt dbSmall 1 1 :=
  (reserve_inventory_spec dbSmall 1 1 5
      { productId := 1, locationId := 1, qoh := 10, reserved := 3 }
      (by decide) (by decide)).2 (by decide)

/-- C7: for an existing inventory row, release_reservation succeeds and
sets reserved_quantity to max(0, reserved - q); over-release clamps to 0,
the result is never negative, and quantity_on_hand is unchanged. -/
theorem release_reservation_spec (db : DB) (pid lid : Nat) (q : Int)
    (inv : InvRow) (hrow : getInv db.inventory pid lid = some inv)
    (hq : 1 ≤ q) :
    (release_reservation db pid lid q).1 = true ∧
    reservedAt (release_reservation db pid lid q).2 pid lid
      = max 0 (inv.reserved - q) ∧
    (inv.reserved ≤ q → reservedAt (release_reservation db pid lid q).2 pid lid = 0) ∧
    0 ≤ reservedAt (release_reservation db pid lid q).2 pid lid ∧
    qohAt (release_reservation db pid lid q).2 pid lid = qohAt db pid lid := by
  obtain ⟨-, hkp, hkl⟩ := getInv_mem_key hrow
  have hqoh : qohAt db pid lid = inv.qoh := by
    unfold qohAt
    rw [hrow]
  have hput := reservedAt_putInv_same db
    { inv with reserved := max 0 (inv.reserved - q) } pid lid hkp hkl
  unfold release_reservation
  rw [hrow]
  simp only
  refine ⟨trivial, ?_, ?_, ?_, ?_⟩
  · exact hput
  · intro hle
    refine hput.trans ?_
    have : inv.reserved - q ≤ 0 := by omega
    simp [max_eq_left this]
  · refine le_of_le_of_eq ?_ hput.symm
    exact le_max_left 0 _
  · rw [hqoh]
    exact qohAt_putInv_same db { inv with reserved := max 0 (inv.reserved - q) }
      pid lid hkp hkl

/-- Witness for C7 at a concrete input: releasing 5 with only 3 reserved
clamps reserved_quantity to 0 and leaves on-hand at 10. -/
theorem release_reservation_spec_witness :
    (release_reservation dbSmall 1 1 5).1 = true ∧
    reservedAt (release_reservation dbSmall 1 1 5).2 1 1 = max 0 (3 - 5) ∧
    (3 ≤ (5 : Int) → reservedAt (release_reservation dbSmall 1 1 5).2 1 1 = 0) ∧
    0 ≤ reservedAt (release_reservation dbSmall 1 1 5).2 1 1 ∧
    qohAt (release_reservation dbSmall 1 1 5).2 1 1 = qohAt dbSmall 1 1 :=
  release_reservation_spec dbSmall 1 1 5
    { productId := 1, locationId := 1, qoh := 10, reserved := 3 }
    (by decide) (by decide)

theorem getInv_cons (j : InvRow) (l : List InvRow) (pid lid : Nat) :
    getInv (j :: l) pid lid
      = if j.productId = pid ∧ j.locationId = lid then some j
        else getInv l pid lid := by
  by_cases h : j.productId = pid ∧ j.locationId = lid
  · rw [if_pos h]
    unfold getInv
    rw [List.find?_cons_of_pos]
    simp [h]
  · rw [if_neg h]
    unfold getInv
    rw [List.find?_cons_of_neg]
    simp [h]

theorem sumQoh_cons (pid : Nat) (j : InvRow) (l : List InvRow) :
    sumQoh pid (j :: l)
      = (if j.productId = pid then j.qoh else 0) + sumQoh pid l := by
  by_cases h : j.productId = pid
  · simp [sumQoh, List.filter_cons, h]
  · simp [sumQoh, List.filter_cons, h]

theorem sumQoh_putInv_found (l : List InvRow) (i2 inv : InvRow)
    (h : getInv l i2.productId i2.locationId = some inv) :
    sumQoh i2.productId (putInv l i2)
      = sumQoh i2.productId l - inv.qoh + i2.qoh := by
  induction l with
  | nil =>
      simp [getInv] at h
  | cons j rest ih =>
      rw [getInv_cons] at h
      by_cases hj : j.productId = i2.productId ∧ j.locationId = i2.locationId
      · rw [if_pos hj] at h
        cases h
        unfold putInv
        rw [if_pos hj]
        rw [sumQoh_cons, sumQoh_cons]
        rw [if_pos rfl, if_pos hj.1]
        omega
      · rw [if_neg hj] at h
        unfold putInv
        rw [if_neg hj]
        rw [sumQoh_cons, sumQoh_cons, ih h]
        omega

theorem sumQoh_putInv_absent (l : List InvRow) (i2 : InvRow)
    (h : getInv l i2.productId i2.locationId = none) :
    sumQoh i2.productId (putInv l i2) = sumQoh i2.productId l + i2.qoh := by
  induction l with
  | nil =>
      unfold putInv
      rw [sumQoh_cons, if_pos rfl]
      simp [sumQoh]
  | cons j rest ih =>
      rw [getInv_cons] at h
      by_cases hj : j.productId = i2.productId ∧ j.locationId = i2.locationId
      · rw [if_pos hj] at h
        cases h
      · rw [if_neg hj] at h
        unfold putInv
        rw [if_neg hj]
        rw [sumQoh_cons, sumQoh_cons, ih h]
        omega

/-! Execution lemmas for `update_inventory`, `process_inventory_update`
and `create_transaction`. -/

theorem update_inventory_set_qoh (allowNeg : Bool) (pid lid : Nat) (v : Int)
    (s : Session) (inv : InvRow)
    (hrow : getInv s.current.inventory pid lid = some inv)
    (hv : 0 ≤ v) :
    update_inventory allowNeg pid lid
        { quantity_on_hand := some v, reserved_quantity := none } s
      = (Except.ok ({ inv with qoh := v }),
         Session.fromDB
           (DB.setInv s.current (putInv s.current.inventory ({ inv with qoh := v })))) := by
  have hneg : ¬(v < 0 ∧ allowNeg = false) := by
    intro hc
    omega
  simp only [update_inventory, hrow, if_neg hneg]
  rfl

theorem update_inventory_create_zero (allowNeg : Bool) (pid lid : Nat)
    (s : Session)
    (hrow : getInv s.current.inventory pid lid = none) :
    update_inventory allowNeg pid lid
        { quantity_on_hand := some 0, reserved_quantity := some 0 } s
      = (Except.ok { productId := pid, locationId := lid, qoh := 0, reserved := 0 },
         Session.fromDB
           (DB.setInv s.current
             (putInv s.current.inventory
               { productId := pid, locationId := lid, qoh := 0, reserved := 0 }))) := by
  have hneg : ¬((0 : Int) < 0 ∧ allowNeg = false) := by
    intro hc
    omega
  simp only [update_inventory, hrow, if_neg hneg]
  rfl

theorem process_inventory_update_ok_existing (allowNeg : Bool) (tx : Tx)
    (s : Session) (inv : InvRow)
    (hrow : getInv s.current.inventory tx.productId tx.locationId = some inv)
    (hnn : 0 ≤ inv.qoh + tx.quantity) :
    process_inventory_update allowNeg tx s
      = (Except.ok (),
         Session.fromDB
           (DB.setInv s.current
             (putInv s.current.inventory ({ inv with qoh := inv.qoh + tx.quantity })))) := by
  have hneg : ¬(inv.qoh + tx.quantity < 0 ∧ allowNeg = false) := by
    intro hc
    omega
  have hset := update_inventory_set_qoh allowNeg tx.productId tx.locationId
    (inv.qoh + tx.quantity) s inv hrow hnn
  simp only [process_inventory_update, hrow, if_neg hneg, hset]

theorem process_inventory_update_ok_absent (allowNeg : Bool) (tx : Tx)
    (s : Session)
    (hrow : getInv s.current.inventory tx.productId tx.locationId = none)
    (hnn : 0 ≤ tx.quantity) :
    process_inventory_update allowNeg tx s
      = (Except.ok (),
         Session.fromDB
           (DB.setInv s.current
             (putInv
               (putInv s.current.inventory
                 { productId := tx.productId, locationId := tx.locationId,
                   qoh := 0, reserved := 0 })
               { productId := tx.productId, locationId := tx.locationId,
                 qoh := tx.quantity, reserved := 0 }))) := by
  have hneg : ¬((0 : Int) + tx.quantity < 0 ∧ allowNeg = false) := by
    intro hc
    omega
  have hzero := update_inventory_create_zero allowNeg tx.productId tx.locationId s hrow
  have hrow2 : getInv
      (Session.fromDB
        (DB.setInv s.current
          (putInv s.current.inventory
            { productId := tx.productId, locationId := tx.locationId,
              qoh := 0, reserved := 0 }))).current.inventory
      tx.productId tx.locationId
      = some { productId := tx.productId, locationId := tx.locationId,
               qoh := 0, reserved := 0 } :=
    getInv_putInv_same rfl rfl
  have hset := update_inventory_set_qoh allowNeg tx.productId tx.locationId
    ((0 : Int) + tx.quantity)
    (Session.fromDB
      (DB.setInv s.current
        (putInv s.current.inventory
          { productId := tx.productId, locationId := tx.locationId,
            qoh := 0, reserved := 0 })))
    { productId := tx.productId, locationId := tx.locationId,
      qoh := 0, reserved := 0 }
    hrow2 (by omega)
  simp only [process_inventory_update, hrow, if_neg hneg, hzero, hset]
  simp [Session.fromDB, DB.setInv, zero_add]

theorem create_transaction_err_noproduct (allowNeg : Bool) (td : TxCreate)
    (s : Session)
    (hp : findProduct s.current td.product_id = none) :
    create_transaction allowNeg td s = (Except.error SvcError.notFound, s) := by
  simp only [create_transaction, hp]

theorem create_transaction_err_noloc (allowNeg : Bool) (td : TxCreate)
    (s : Session) (p : Product)
    (hp : findProduct s.current td.product_id = some p)
    (hl : findLocation s.current td.location_id = none) :
    create_transaction allowNeg td s = (Except.error SvcError.notFound, s) := by
  simp only [create_transaction, hp, hl]

theorem create_transaction_err_validate (allowNeg : Bool) (td : TxCreate)
    (s : Session) (p : Product) (loc : Location) (e : SvcError)
    (hp : findProduct s.current td.product_id = some p)
    (hl : findLocation s.current td.location_id = some loc)
    (hv : validate_transaction s.current td = some e) :
    create_transaction allowNeg td s = (Except.error e, s) := by
  simp only [create_transaction, hp, hl, hv]

theorem create_transaction_ok_existing (allowNeg : Bool) (td : TxCreate)
    (s : Session) (p : Product) (loc : Location) (inv : InvRow)
    (hp : findProduct s.current td.product_id = some p)
    (hl : findLocation s.current td.location_id = some loc)
    (hv : validate_transaction s.current td = none)
    (hrow : getInv s.current.inventory td.product_id td.location_id = some inv)
    (hnn : 0 ≤ inv.qoh + td.quantity) :
    create_transaction allowNeg td s
      = (Except.ok
           { productId := td.product_id, locationId := td.location_id,
             ttype := td.transaction_type, quantity := td.quantity },
         Session.fromDB
           (DB.setInv
             (DB.addTx s.current
               { productId := td.product_id, locationId := td.location_id,
                 ttype := td.transaction_type, quantity := td.quantity })
             (putInv s.current.inventory ({ inv with qoh := inv.qoh + td.quantity })))) := by
  have hpu := process_inventory_update_ok_existing allowNeg
    { productId := td.product_id, locationId := td.location_id,
      ttype := td.transaction_type, quantity := td.quantity }
    { s with current :=
        { s.current with transactions := s.current.transactions ++
            [{ productId := td.product_id, locationId := td.location_id,
               ttype := td.transaction_type, quantity := td.quantity }] } }
    inv hrow hnn
  simp only [create_transaction, hp, hl, hv, hpu]
  rfl

theorem create_transaction_ok_absent (allowNeg : Bool) (td : TxCreate)
    (s : Session) (p : Product) (loc : Location)
    (hp : findProduct s.current td.product_id = some p)
    (hl : findLocation s.current td.location_id = some loc)
    (hv : validate_transaction s.current td = none)
    (hrow : getInv s.current.inventory td.product_id td.location_id = none)
    (hnn : 0 ≤ td.quantity) :
    create_transaction allowNeg td s
      = (Except.ok
           { productId := td.product_id, locationId := td.location_id,
             ttype := td.transaction_type, quantity := td.quantity },
         Session.fromDB
           (DB.setInv
             (DB.addTx s.current
               { productId := td.product_id, locationId := td.location_id,
                 ttype := td.transaction_type, quantity := td.quantity })
             (putInv
               (putInv s.current.inventory
                 { productId := td.product_id, locationId := td.location_id,
                   qoh := 0, reserved := 0 })
               { productId := td.product_id, locationId := td.location_id,
                 qoh := td.quantity, reserved := 0 }))) := by
  have hpu := process_inventory_update_ok_absent allowNeg
    { productId := td.product_id, locationId := td.location_id,
      ttype := td.transaction_type, quantity := td.quantity }
    { s with current :=
        { s.current with transactions := s.current.transactions ++
            [{ productId := td.product_id, locationId := td.location_id,
               ttype := td.transaction_type, quantity := td.quantity }] } }
    hrow hnn
  simp only [create_transaction, hp, hl, hv, hpu]
  rfl

theorem validate_transaction_neg (db : DB) (pid lid : Nat) (ty : TxType)
    (q : Int) (hq : 1 ≤ q) (hIN : ty ≠ TxType.tIN)
    (hOT : ty = TxType.tOUT ∨ ty = TxType.tTRANSFER) :
    validate_transaction db
        { product_id := pid, location_id := lid,
          transaction_type := ty, quantity := -q }
      = (if get_available_quantity db pid lid < q then
           some SvcError.insufficientStock
         else none) := by
  have h1 : ¬(-q = 0) := by omega
  have h2 : ¬(ty = TxType.tIN ∧ -q ≤ 0) := by
    intro hc
    exact hIN hc.1
  have h3 : ¬(ty = TxType.tOUT ∧ 0 ≤ -q) := by
    intro hc
    omega
  have h4 : (ty = TxType.tOUT ∨ ty = TxType.tTRANSFER) ∧ -q < 0 :=
    ⟨hOT, by omega⟩
  have habs : |(-q)| = q := by
    rw [abs_neg]
    exact abs_of_nonneg (by omega)
  simp only [validate_transaction, if_neg h1, if_neg h2, if_neg h3, if_pos h4, habs]

theorem validate_transaction_pos_transfer (db : DB) (pid lid : Nat) (q : Int)
    (hq : 1 ≤ q) :
    validate_transaction db
        { product_id := pid, location_id := lid,
          transaction_type := TxType.tTRANSFER, quantity := q }
      = none := by
  have h1 : ¬(q = 0) := by omega
  have h2 : ¬(TxType.tTRANSFER = TxType.tIN ∧ q ≤ 0) := by
    intro hc
    omega
  have h3 : ¬(TxType.tTRANSFER = TxType.tOUT ∧ 0 ≤ q) := by
    intro hc
    cases hc.1
  have h4 : ¬((TxType.tTRANSFER = TxType.tOUT ∨ True) ∧ q < 0) := by
    intro hc
    exact absurd hc.2 (by omega)
  simp only [validate_transaction]
  rw [if_neg h1, if_neg h2, if_neg h3, if_neg h4]

/-- C2: with the declared non-negative column constraints, a stock
shipment of q ≥ 1 at an existing product and location fails with the
insufficient-stock error and leaves the committed database untouched
exactly when the available quantity is below q; otherwise it succeeds,
decreases quantity_on_hand by exactly q, leaves reserved_quantity
unchanged and appends exactly one OUT transaction row with quantity -q. -/
theorem process_stock_shipment_spec (db : DB) (pid lid : Nat) (q : Int)
    (p : Product) (loc : Location)
    (hWF : db.WF) (hq : 1 ≤ q)
    (hp : findProduct db pid = some p)
    (hl : findLocation db lid = some loc) :
    (get_available_quantity db pid lid < q →
      process_stock_shipment false pid lid q (Session.fromDB db)
        = (Except.error SvcError.insufficientStock, Session.fromDB db)) ∧
    (q ≤ get_available_quantity db pid lid →
      ∃ s2,
        process_stock_shipment false pid lid q (Session.fromDB db)
          = (Except.ok
              { productId := pid, locationId := lid,
                ttype := TxType.tOUT, quantity := -q }, s2) ∧
        qohAt s2.committed pid lid = qohAt db pid lid - q ∧
        reservedAt s2.committed pid lid = reservedAt db pid lid ∧
        s2.committed.transactions
          = db.transactions ++
            [{ productId := pid, locationId := lid,
               ttype := TxType.tOUT, quantity := -q }]) := by
  have habs : -|q| = -q := by
    rw [abs_of_nonneg (by omega : (0 : Int) ≤ q)]
  have hvalid := validate_transaction_neg db pid lid TxType.tOUT q hq
    (by intro hc; cases hc) (Or.inl rfl)
  constructor
  · intro hins
    have hv : validate_transaction db
        { product_id := pid, location_id := lid,
          transaction_type := TxType.tOUT, quantity := -q }
        = some SvcError.insufficientStock := by
      rw [hvalid, if_pos hins]
    have := create_transaction_err_validate false
      { product_id := pid, location_id := lid,
        transaction_type := TxType.tOUT, quantity := -q }
      (Session.fromDB db) p loc SvcError.insufficientStock hp hl hv
    simp only [process_stock_shipment, habs]
    exact this
  · intro hok
    have hv : validate_transaction db
        { product_id := pid, location_id := lid,
          transaction_type := TxType.tOUT, quantity := -q }
        = none := by
      rw [hvalid, if_neg (by omega)]
    obtain ⟨inv, hrow⟩ : ∃ inv, getInv db.inventory pid lid = some inv := by
      cases hg : getInv db.inventory pid lid with
      | some i => exact ⟨i, rfl⟩
      | none =>
          exfalso
          unfold get_available_quantity at hok
          rw [hg] at hok
          simp only at hok
          omega
    have hkey := getInv_mem_key hrow
    have hres : 0 ≤ inv.reserved := (hWF inv hkey.1).2
    have havq : q ≤ max 0 (inv.qoh - inv.reserved) := by
      unfold get_available_quantity at hok
      rw [hrow] at hok
      exact hok
    have hnn : 0 ≤ inv.qoh + -q := by
      rcases le_total (inv.qoh - inv.reserved) 0 with h0 | h0
      · rw [max_eq_left h0] at havq
        omega
      · rw [max_eq_right h0] at havq
        omega
    have hrun := create_transaction_ok_existing false
      { product_id := pid, location_id := lid,
        transaction_type := TxType.tOUT, quantity := -q }
      (Session.fromDB db) p loc inv hp hl hv hrow hnn
    refine ⟨Session.fromDB
        (DB.setInv
          (DB.addTx db
            { productId := pid, locationId := lid,
              ttype := TxType.tOUT, quantity := -q })
          (putInv db.inventory ({ inv with qoh := inv.qoh + -q }))), ?_, ?_, ?_, ?_⟩
    · simp only [process_stock_shipment, habs]
      exact hrun
    · show qohAt
        (Session.fromDB
          (DB.setInv
            (DB.addTx db
              { productId := pid, locationId := lid,
                ttype := TxType.tOUT, quantity := -q })
            (putInv db.inventory ({ inv with qoh := inv.qoh + -q })))).committed
        pid lid = qohAt db pid lid - q
      unfold qohAt
      rw [show (Session.fromDB
          (DB.setInv
            (DB.addTx db
              { productId := pid, locationId := lid,
                ttype := TxType.tOUT, quantity := -q })
            (putInv db.inventory ({ inv with qoh := inv.qoh + -q })))).committed.inventory
          = putInv db.inventory ({ inv with qoh := inv.qoh + -q }) from rfl]
      rw [getInv_putInv_same (i := { inv with qoh := inv.qoh + -q }) hkey.2.1 hkey.2.2, hrow]
      show inv.qoh + -q = inv.qoh - q
      omega
    · show reservedAt
        (Session.fromDB
          (DB.setInv
            (DB.addTx db
              { productId := pid, locationId := lid,
                ttype := TxType.tOUT, quantity := -q })
            (putInv db.inventory ({ inv with qoh := inv.qoh + -q })))).committed
        pid lid = reservedAt db pid lid
      unfold reservedAt
      rw [show (Session.fromDB
          (DB.setInv
            (DB.addTx db
              { productId := pid, locationId := lid,
                ttype := TxType.tOUT, quantity := -q })
            (putInv db.inventory ({ inv with qoh := inv.qoh + -q })))).committed.inventory
          = putInv db.inventory ({ inv with qoh := inv.qoh + -q }) from rfl]
      rw [getInv_putInv_same (i := { inv with qoh := inv.qoh + -q }) hkey.2.1 hkey.2.2, hrow]
    · rfl

/-- Witness for C2 at a concrete input: shipping 5 of the 7 available
units succeeds, moves on-hand from 10 to 5 and appends one OUT row. -/
theorem process_stock_shipment_spec_witness :
    ∃ s2,
      process_stock_shipment false 1 1 5 (Session.fromDB dbSmall)
        = (Except.ok
            { productId := 1, locationId := 1,
              ttype := TxType.tOUT, quantity := -5 }, s2) ∧
      qohAt s2.committed 1 1 = qohAt dbSmall 1 1 - 5 ∧
      reservedAt s2.committed 1 1 = reservedAt dbSmall 1 1 ∧
      s2.committed.transactions
        = dbSmall.transactions ++
          [{ productId := 1, locationId := 1,
             ttype := TxType.tOUT, quantity := -5 }] :=
  (process_stock_shipment_spec dbSmall 1 1 5
      { id := 1, supplierId := none, reorderPoint := 10, isActive := true }
      { id := 1 }
      (by decide) (by decide) (by decide) (by decide)).2 (by decide)

theorem sumQoh_putInv_found2 (l : List InvRow) (i2 inv : InvRow)
    (pid lid : Nat) (hp : i2.productId = pid) (hl : i2.locationId = lid)
    (h : getInv l pid lid = some inv) :
    sumQoh pid (putInv l i2) = sumQoh pid l - inv.qoh + i2.qoh := by
  subst hp
  subst hl
  exact sumQoh_putInv_found l i2 inv h

theorem sumQoh_putInv_absent2 (l : List InvRow) (i2 : InvRow)
    (pid lid : Nat) (hp : i2.productId = pid) (hl : i2.locationId = lid)
    (h : getInv l pid lid = none) :
    sumQoh pid (putInv l i2) = sumQoh pid l + i2.qoh := by
  subst hp
  subst hl
  exact sumQoh_putInv_absent l i2 h

theorem qohAt_of_some (db : DB) (pid lid : Nat) (i : InvRow)
    (h : getInv db.inventory pid lid = some i) : qohAt db pid lid = i.qoh := by
  unfold qohAt
  rw [h]

theorem qohAt_of_none (db : DB) (pid lid : Nat)
    (h : getInv db.inventory pid lid = none) : qohAt db pid lid = 0 := by
  unfold qohAt
  rw [h]

/-- C1: with the declared non-negative column constraints, transferring
q ≥ 1 available units of a product between two distinct existing
locations decreases on-hand at the source by exactly q, increases on-hand
at the destination by exactly q, preserves the product's total on-hand
over all locations, and appends exactly two TRANSFER rows: -q at the
source and +q at the destination. -/
theorem process_stock_transfer_spec (db : DB) (pid A B : Nat) (q : Int)
    (p : Product) (lA lB : Location)
    (hWF : db.WF) (hq : 1 ≤ q) (hAB : A ≠ B)
    (hp : findProduct db pid = some p)
    (hlA : findLocation db A = some lA)
    (hlB : findLocation db B = some lB)
    (hav : q ≤ get_available_quantity db pid A) :
    ∃ s2,
      process_stock_transfer false pid A B q (Session.fromDB db)
        = (Except.ok
            [{ productId := pid, locationId := A,
               ttype := TxType.tTRANSFER, quantity := -q },
             { productId := pid, locationId := B,
               ttype := TxType.tTRANSFER, quantity := q }], s2) ∧
      qohAt s2.committed pid A = qohAt db pid A - q ∧
      qohAt s2.committed pid B = qohAt db pid B + q ∧
      totalOnHand s2.committed pid = totalOnHand db pid ∧
      s2.committed.transactions
        = db.transactions ++
          [{ productId := pid, locationId := A,
             ttype := TxType.tTRANSFER, quantity := -q },
           { productId := pid, locationId := B,
             ttype := TxType.tTRANSFER, quantity := q }] := by
  have habs : |q| = q := abs_of_nonneg (by omega)
  have hnegq : -|q| = -q := by rw [habs]
  obtain ⟨invA, hrowA⟩ : ∃ i, getInv db.inventory pid A = some i := by
    cases hg : getInv db.inventory pid A with
    | some i => exact ⟨i, rfl⟩
    | none =>
        exfalso
        unfold get_available_quantity at hav
        rw [hg] at hav
        simp only at hav
        omega
  have hkeyA := getInv_mem_key hrowA
  have hresA : 0 ≤ invA.reserved := (hWF invA hkeyA.1).2
  have havA : q ≤ max 0 (invA.qoh - invA.reserved) := by
    unfold get_available_quantity at hav
    rw [hrowA] at hav
    exact hav
  have hnn1 : 0 ≤ invA.qoh + -q := by
    rcases le_total (invA.qoh - invA.reserved) 0 with h0 | h0
    · rw [max_eq_left h0] at havA
      omega
    · rw [max_eq_right h0] at havA
      omega
  have hv1 : validate_transaction db
      { product_id := pid, location_id := A,
        transaction_type := TxType.tTRANSFER, quantity := -q } = none := by
    rw [validate_transaction_neg db pid A TxType.tTRANSFER q hq
      (by intro hc; cases hc) (Or.inr rfl)]
    rw [if_neg (by omega : ¬(get_available_quantity db pid A < q))]
  have hrun1 := create_transaction_ok_existing false
    { product_id := pid, location_id := A,
      transaction_type := TxType.tTRANSFER, quantity := -q }
    (Session.fromDB db) p lA invA hp hlA hv1 hrowA hnn1
  have hAcond : ¬(get_available_quantity (Session.fromDB db).current pid A < q) :=
    not_lt.mpr hav
  have hrowB1 : getInv (putInv db.inventory ({ invA with qoh := invA.qoh + -q })) pid B
      = getInv db.inventory pid B :=
    getInv_putInv_other (fun hc => hAB (hkeyA.2.2.symm.trans hc.2))
  cases hB : getInv db.inventory pid B with
  | some invB =>
      have hkeyB := getInv_mem_key hB
      have hqohB : 0 ≤ invB.qoh := (hWF invB hkeyB.1).1
      have hnn2 : 0 ≤ invB.qoh + q := by omega
      have hrowB2 : getInv (putInv db.inventory ({ invA with qoh := invA.qoh + -q })) pid B
          = some invB := by
        rw [hrowB1, hB]
      have hrun2 := create_transaction_ok_existing false
        { product_id := pid, location_id := B,
          transaction_type := TxType.tTRANSFER, quantity := q }
        (Session.fromDB
          (DB.setInv
            (DB.addTx db
              { productId := pid, locationId := A,
                ttype := TxType.tTRANSFER, quantity := -q })
            (putInv db.inventory ({ invA with qoh := invA.qoh + -q }))))
        p lB invB hp hlB
        (validate_transaction_pos_transfer _ pid B q hq) hrowB2 hnn2
      have hgA2 : getInv
          (putInv (putInv db.inventory ({ invA with qoh := invA.qoh + -q }))
            ({ invB with qoh := invB.qoh + q })) pid A
          = some ({ invA with qoh := invA.qoh + -q }) := by
        rw [getInv_putInv_other (i := { invB with qoh := invB.qoh + q })
          (fun hc => hAB (hkeyB.2.2.symm.trans hc.2).symm)]
        exact getInv_putInv_same (i := { invA with qoh := invA.qoh + -q })
          hkeyA.2.1 hkeyA.2.2
      have hgB2 : getInv
          (putInv (putInv db.inventory ({ invA with qoh := invA.qoh + -q }))
            ({ invB with qoh := invB.qoh + q })) pid B
          = some ({ invB with qoh := invB.qoh + q }) :=
        getInv_putInv_same (i := { invB with qoh := invB.qoh + q })
          hkeyB.2.1 hkeyB.2.2
      simp only [process_stock_transfer, hnegq, habs]
      rw [if_neg hAB, if_neg hAcond]
      simp only [Session.fromDB, DB.setInv, DB.addTx] at hrun1 hrun2 ⊢
      simp only [hrun1]
      simp only [hrun2]
      refine ⟨_, rfl, ?_, ?_, ?_, ?_⟩
      · show qohAt _ pid A = qohAt db pid A - q
        unfold qohAt
        rw [show getInv db.inventory pid A = some invA from hrowA]
        rw [show getInv
            (putInv (putInv db.inventory ({ invA with qoh := invA.qoh + -q }))
              ({ invB with qoh := invB.qoh + q })) pid A
            = some ({ invA with qoh := invA.qoh + -q }) from hgA2]
        show invA.qoh + -q = invA.qoh - q
        omega
      · show qohAt _ pid B = qohAt db pid B + q
        unfold qohAt
        rw [show getInv db.inventory pid B = some invB from hB]
        rw [show getInv
            (putInv (putInv db.inventory ({ invA with qoh := invA.qoh + -q }))
              ({ invB with qoh := invB.qoh + q })) pid B
            = some ({ invB with qoh := invB.qoh + q }) from hgB2]
      · show totalOnHand _ pid = totalOnHand db pid
        unfold totalOnHand
        show sumQoh pid
            (putInv (putInv db.inventory ({ invA with qoh := invA.qoh + -q }))
              ({ invB with qoh := invB.qoh + q }))
          = sumQoh pid db.inventory
        rw [sumQoh_putInv_found2 _ ({ invB with qoh := invB.qoh + q }) invB pid B
          hkeyB.2.1 hkeyB.2.2 hrowB2]
        rw [sumQoh_putInv_found2 _ ({ invA with qoh := invA.qoh + -q }) invA pid A
          hkeyA.2.1 hkeyA.2.2 hrowA]
        show sumQoh pid db.inventory - invA.qoh + (invA.qoh + -q)
            - invB.qoh + (invB.qoh + q) = sumQoh pid db.inventory
        omega
      · show _ = db.transactions ++ _
        simp [List.append_assoc]
  | none =>
      have hrowB2 : getInv (putInv db.inventory ({ invA with qoh := invA.qoh + -q })) pid B
          = none := by
        rw [hrowB1, hB]
      have hrun2 := create_transaction_ok_absent false
        { product_id := pid, location_id := B,
          transaction_type := TxType.tTRANSFER, quantity := q }
        (Session.fromDB
          (DB.setInv
            (DB.addTx db
              { productId := pid, locationId := A,
                ttype := TxType.tTRANSFER, quantity := -q })
            (putInv db.inventory ({ invA with qoh := invA.qoh + -q }))))
        p lB hp hlB
        (validate_transaction_pos_transfer _ pid B q hq) hrowB2
        (show (0 : Int) ≤ q by omega)
      have hg0 : getInv
          (putInv (putInv db.inventory ({ invA with qoh := invA.qoh + -q }))
            { productId := pid, locationId := B, qoh := 0, reserved := 0 }) pid B
          = some { productId := pid, locationId := B, qoh := 0, reserved := 0 } :=
        getInv_putInv_same rfl rfl
      have hgA2 : getInv
          (putInv (putInv (putInv db.inventory ({ invA with qoh := invA.qoh + -q }))
              { productId := pid, locationId := B, qoh := 0, reserved := 0 })
            { productId := pid, locationId := B, qoh := q, reserved := 0 }) pid A
          = some ({ invA with qoh := invA.qoh + -q }) := by
        rw [getInv_putInv_other
          (i := { productId := pid, locationId := B, qoh := q, reserved := 0 })
          (fun hc => hAB hc.2.symm)]
        rw [getInv_putInv_other
          (i := { productId := pid, locationId := B, qoh := 0, reserved := 0 })
          (fun hc => hAB hc.2.symm)]
        exact getInv_putInv_same (i := { invA with qoh := invA.qoh + -q })
          hkeyA.2.1 hkeyA.2.2
      have hgB2 : getInv
          (putInv (putInv (putInv db.inventory ({ invA with qoh := invA.qoh + -q }))
              { productId := pid, locationId := B, qoh := 0, reserved := 0 })
            { productId := pid, locationId := B, qoh := q, reserved := 0 }) pid B
          = some { productId := pid, locationId := B, qoh := q, reserved := 0 } :=
        getInv_putInv_same rfl rfl
      simp only [process_stock_transfer, hnegq, habs]
      rw [if_neg hAB, if_neg hAcond]
      simp only [Session.fromDB, DB.setInv, DB.addTx] at hrun1 hrun2 ⊢
      simp only [hrun1]
      simp only [hrun2]
      refine ⟨_, rfl, ?_, ?_, ?_, ?_⟩
      · show qohAt _ pid A = qohAt db pid A - q
        unfold qohAt
        rw [show getInv db.inventory pid A = some invA from hrowA]
        rw [show getInv
            (putInv (putInv (putInv db.inventory ({ invA with qoh := invA.qoh + -q }))
                { productId := pid, locationId := B, qoh := 0, reserved := 0 })
              { productId := pid, locationId := B, qoh := q, reserved := 0 }) pid A
            = some ({ invA with qoh := invA.qoh + -q }) from hgA2]
        show invA.qoh + -q = invA.qoh - q
        omega
      · show qohAt _ pid B = qohAt db pid B + q
        unfold qohAt
        rw [show getInv db.inventory pid B = none from hB]
        rw [show getInv
            (putInv (putInv (putInv db.inventory ({ invA with qoh := invA.qoh + -q }))
                { productId := pid, locationId := B, qoh := 0, reserved := 0 })
              { productId := pid, locationId := B, qoh := q, reserved := 0 }) pid B
            = some { productId := pid, locationId := B, qoh := q, reserved := 0 } from hgB2]
        show q = 0 + q
        omega
      · show totalOnHand _ pid = totalOnHand db pid
        unfold totalOnHand
        show sumQoh pid
            (putInv (putInv (putInv db.inventory ({ invA with qoh := invA.qoh + -q }))
                { productId := pid, locationId := B, qoh := 0, reserved := 0 })
              { productId := pid, locationId := B, qoh := q, reserved := 0 })
          = sumQoh pid db.inventory
        rw [sumQoh_putInv_found2 _
          { productId := pid, locationId := B, qoh := q, reserved := 0 }
          { productId := pid, locationId := B, qoh := 0, reserved := 0 } pid B
          rfl rfl hg0]
        rw [sumQoh_putInv_absent2 _
          { productId := pid, locationId := B, qoh := 0, reserved := 0 } pid B
          rfl rfl hrowB2]
        rw [sumQoh_putInv_found2 _ ({ invA with qoh := invA.qoh + -q }) invA pid A
          hkeyA.2.1 hkeyA.2.2 hrowA]
        show sumQoh pid db.inventory - invA.qoh + (invA.qoh + -q) + 0 - 0 + q
            = sumQoh pid db.inventory
        omega
      · show _ = db.transactions ++ _
        simp [List.append_assoc]

/-- Witness for C1 at a concrete input: transferring 4 of 7 available
units from location 1 to location 2 moves on-hand 10 to 6 at the source,
0 to 4 at the destination, and appends the two TRANSFER rows. -/
theorem process_stock_transfer_spec_witness :
    ∃ s2,
      process_stock_transfer false 1 1 2 4 (Session.fromDB dbTwoLoc)
        = (Except.ok
            [{ productId := 1, locationId := 1,
               ttype := TxType.tTRANSFER, quantity := -4 },
             { productId := 1, locationId := 2,
               ttype := TxType.tTRANSFER, quantity := 4 }], s2) ∧
      qohAt s2.committed 1 1 = qohAt dbTwoLoc 1 1 - 4 ∧
      qohAt s2.committed 1 2 = qohAt dbTwoLoc 1 2 + 4 ∧
      totalOnHand s2.committed 1 = totalOnHand dbTwoLoc 1 ∧
      s2.committed.transactions
        = dbTwoLoc.transactions ++
          [{ productId := 1, locationId := 1,
             ttype := TxType.tTRANSFER, quantity := -4 },
           { productId := 1, locationId := 2,
             ttype := TxType.tTRANSFER, quantity := 4 }] :=
  process_stock_transfer_spec dbTwoLoc 1 1 2 4
    { id := 1, supplierId := none, reorderPoint := 10, isActive := true }
    { id := 1 } { id := 2 }
    (by decide) (by decide) (by decide) (by decide) (by decide) (by decide)
    (by decide)

/-- C3: evaluation of the code at a failing batch.  The batch of a valid
receipt of 5 followed by a zero-quantity item fails, yet the committed
state keeps the first item: on-hand moved from 10 to 15 and the receipt
row stays in the transaction log, because `create_transaction` commits
each item before the batch-level rollback runs. -/
theorem create_bulk_transactions_keeps_first_item :
    (create_bulk_transactions false
        [{ product_id := 1, location_id := 1,
           transaction_type := TxType.tIN, quantity := 5 },
         { product_id := 1, location_id := 1,
           transaction_type := TxType.tIN, quantity := 0 }]
        (Session.fromDB dbSmall)).1 = Except.error SvcError.invalidArgument
    ∧ qohAt (create_bulk_transactions false
        [{ product_id := 1, location_id := 1,
           transaction_type := TxType.tIN, quantity := 5 },
         { product_id := 1, location_id := 1,
           transaction_type := TxType.tIN, quantity := 0 }]
        (Session.fromDB dbSmall)).2.committed 1 1 = 15
    ∧ (create_bulk_transactions false
        [{ product_id := 1, location_id := 1,
           transaction_type := TxType.tIN, quantity := 5 },
         { product_id := 1, location_id := 1,
           transaction_type := TxType.tIN, quantity := 0 }]
        (Session.fromDB dbSmall)).2.committed.transactions
      = [{ productId := 1, locationId := 1,
           ttype := TxType.tIN, quantity := 5 }]
    ∧ (create_bulk_transactions false
        [{ product_id := 1, location_id := 1,
           transaction_type := TxType.tIN, quantity := 5 },
         { product_id := 1, location_id := 1,
           transaction_type := TxType.tIN, quantity := 0 }]
        (Session.fromDB dbSmall)).2.committed ≠ dbSmall := by
  decide

/-- C4: evaluation of the code at a transfer whose second leg fails.  The
transfer of 5 units from location 1 to the nonexistent location 2 raises
not-found on the second leg, yet the committed state keeps the first leg:
on-hand at the source moved from 10 to 5 and the negative TRANSFER row
stays in the transaction log, because `create_transaction` commits the
first leg before the second leg runs. -/
theorem process_stock_transfer_keeps_first_leg :
    (process_stock_transfer false 1 1 2 5 (Session.fromDB dbSmall)).1
      = Except.error SvcError.notFound
    ∧ qohAt (process_stock_transfer false 1 1 2 5
        (Session.fromDB dbSmall)).2.committed 1 1 = 5
    ∧ (process_stock_transfer false 1 1 2 5
        (Session.fromDB dbSmall)).2.committed.transactions
      = [{ productId := 1, locationId := 1,
           ttype := TxType.tTRANSFER, quantity := -5 }]
    ∧ (process_stock_transfer false 1 1 2 5
        (Session.fromDB dbSmall)).2.committed ≠ dbSmall := by
  decide

/-- C10: the negative-quantity guard in `update_inventory` checks only
the `quantity_on_hand` field.  An update that supplies a negative
reserved_quantity, with the allow-negative-inventory override disabled,
succeeds and persists the negative value verbatim, leaving
quantity_on_hand unchanged. -/
theorem update_inventory_negative_reserved (db : DB) (pid lid : Nat)
    (r : Int) (inv : InvRow)
    (hrow : getInv db.inventory pid lid = some inv) (hr : r < 0) :
    (update_inventory false pid lid
        { quantity_on_hand := none, reserved_quantity := some r }
        (Session.fromDB db)).1
      = Except.ok ({ inv with reserved := r }) ∧
    reservedAt (update_inventory false pid lid
        { quantity_on_hand := none, reserved_quantity := some r }
        (Session.fromDB db)).2.committed pid lid = r ∧
    qohAt (update_inventory false pid lid
        { quantity_on_hand := none, reserved_quantity := some r }
        (Session.fromDB db)).2.committed pid lid = inv.qoh := by
  have hkey := getInv_mem_key hrow
  have hres : update_inventory false pid lid
      { quantity_on_hand := none, reserved_quantity := some r }
      (Session.fromDB db)
      = (Except.ok ({ inv with reserved := r }),
         Session.fromDB
           (DB.setInv db (putInv db.inventory ({ inv with reserved := r })))) := by
    simp only [update_inventory, Session.fromDB, hrow]
    rfl
  rw [hres]
  refine ⟨rfl, ?_, ?_⟩
  · unfold reservedAt
    rw [show (Session.fromDB
        (DB.setInv db (putInv db.inventory ({ inv with reserved := r })))).committed.inventory
        = putInv db.inventory ({ inv with reserved := r }) from rfl]
    rw [getInv_putInv_same (i := { inv with reserved := r }) hkey.2.1 hkey.2.2]
  · unfold qohAt
    rw [show (Session.fromDB
        (DB.setInv db (putInv db.inventory ({ inv with reserved := r })))).committed.inventory
        = putInv db.inventory ({ inv with reserved := r }) from rfl]
    rw [getInv_putInv_same (i := { inv with reserved := r }) hkey.2.1 hkey.2.2]

/-- Witness for C10 at a concrete input: setting reserved_quantity to -7
through the update endpoint succeeds and persists -7. -/
theorem update_inventory_negative_reserved_witness :
    (update_inventory false 1 1
        { quantity_on_hand := none, reserved_quantity := some (-7) }
        (Session.fromDB dbSmall)).1
      = Except.ok { productId := 1, locationId := 1, qoh := 10, reserved := -7 } ∧
    reservedAt (update_inventory false 1 1
        { quantity_on_hand := none, reserved_quantity := some (-7) }
        (Session.fromDB dbSmall)).2.committed 1 1 = -7 ∧
    qohAt (update_inventory false 1 1
        { quantity_on_hand := none, reserved_quantity := some (-7) }
        (Session.fromDB dbSmall)).2.committed 1 1 = 10 :=
  update_inventory_negative_reserved dbSmall 1 1 (-7)
    { productId := 1, locationId := 1, qoh := 10, reserved := 3 }
    (by decide) (by decide)

theorem list_transactions_length_pos (db : DB) (pid : Nat) (t : Tx)
    (ht : t ∈ db.transactions) (htp : t.productId = pid) :
    0 < (list_transactions db (some pid)).length := by
  have hpred : (if pid = 0 then true else decide (t.productId = pid)) = true := by
    by_cases h0 : pid = 0
    · simp [h0]
    · simp [h0, htp]
  have hmem : t ∈ db.transactions.filter
      (fun u => if pid = 0 then true else decide (u.productId = pid)) :=
    List.mem_filter.mpr ⟨ht, hpred⟩
  have hlen : 0 < (db.transactions.filter
      (fun u => if pid = 0 then true else decide (u.productId = pid))).length :=
    List.length_pos.mpr (List.ne_nil_of_mem hmem)
  unfold list_transactions
  rw [List.length_take]
  exact lt_min (by omega) hlen

/-- C9: hard-deleting a product, location or supplier with transaction
history (for a supplier: transactions on its products, which in
particular means it still has products) fails with the business-rule
error and leaves the database unchanged. -/
theorem hard_delete_blocked_by_history (db : DB) (pid lid sid : Nat) :
    (∀ p : Product, findProduct db pid = some p →
      (∃ t ∈ db.transactions, t.productId = pid) →
      delete_product_permanently db pid = (Except.error SvcError.businessRule, db)) ∧
    (∀ l : Location, findLocation db lid = some l →
      (∃ t ∈ db.transactions, t.locationId = lid) →
      delete_location_permanently db lid = (Except.error SvcError.businessRule, db)) ∧
    (∀ s : Supplier, findSupplier db sid = some s →
      (∃ t ∈ db.transactions, ∃ p ∈ db.products,
        p.supplierId = some sid ∧ t.productId = p.id) →
      delete_supplier_permanently db sid = (Except.error SvcError.businessRule, db)) := by
  refine ⟨?_, ?_, ?_⟩
  · rintro p hfind ⟨t, ht, htp⟩
    have hlen := list_transactions_length_pos db pid t ht htp
    simp only [delete_product_permanently, hfind]
    rw [if_pos hlen]
  · rintro l hfind ⟨t, ht, htl⟩
    have hmem : t ∈ db.transactions.filter (fun u => decide (u.locationId = lid)) :=
      List.mem_filter.mpr ⟨ht, by simp [htl]⟩
    have hlen : 0 < (db.transactions.filter
        (fun u => decide (u.locationId = lid))).length :=
      List.length_pos.mpr (List.ne_nil_of_mem hmem)
    simp only [delete_location_permanently, hfind]
    by_cases hinv : 0 < (db.inventory.filter (fun i => decide (i.locationId = lid))).length
        ∧ 0 < (db.inventory.filter
            (fun i => decide (i.locationId = lid) && decide (0 < i.qoh))).length
    · rw [if_pos hinv]
    · rw [if_neg hinv, if_pos hlen]
  · rintro s hfind ⟨t, ht, p, hp, hps, htp⟩
    have hmem : p ∈ db.products.filter (fun u => decide (u.supplierId = some sid)) :=
      List.mem_filter.mpr ⟨hp, by simp [hps]⟩
    have hlen : 0 < (get_supplier_products db sid).length := by
      unfold get_supplier_products
      exact List.length_pos.mpr (List.ne_nil_of_mem hmem)
    simp only [delete_supplier_permanently, hfind]
    rw [if_pos hlen]

/-- Witness for C9 at a concrete input: with one transaction on product 1
at location 1 and product 1 supplied by supplier 1, all three permanent
deletes fail with the business-rule error and change nothing. -/
theorem hard_delete_blocked_by_history_witness :
    delete_product_permanently dbPerfIn 1 = (Except.error SvcError.businessRule, dbPerfIn) ∧
    delete_location_permanently dbPerfIn 1 = (Except.error SvcError.businessRule, dbPerfIn) ∧
    delete_supplier_permanently dbPerfIn 1 = (Except.error SvcError.businessRule, dbPerfIn) := by
  have h := hard_delete_blocked_by_history dbPerfIn 1 1 1
  refine ⟨?_, ?_, ?_⟩
  · exact h.1 { id := 1, supplierId := some 1, reorderPoint := 10, isActive := true }
      (by decide)
      ⟨{ productId := 1, locationId := 1, ttype := TxType.tIN, quantity := 5 },
        by decide, by decide⟩
  · exact h.2.1 { id := 1 } (by decide)
      ⟨{ productId := 1, locationId := 1, ttype := TxType.tIN, quantity := 5 },
        by decide, by decide⟩
  · exact h.2.2 { id := 1, leadTimeDays := 10 } (by decide)
      ⟨{ productId := 1, locationId := 1, ttype := TxType.tIN, quantity := 5 },
        by decide,
        { id := 1, supplierId := some 1, reorderPoint := 10, isActive := true },
        by decide, by decide, by decide⟩

/-- C5 counterexample: an active product with no inventory rows at all
satisfies the claim's low-stock condition (total available 0 ≤ reorder
point 10) yet the scan, whose SQL uses an inner join over the inventory
table, does not report it. -/
theorem get_low_stock_products_misses_no_row_product :
    claimLowStock dbNoInv
      { id := 1, supplierId := none, reorderPoint := 10, isActive := true } ∧
    { id := 1, supplierId := none, reorderPoint := 10, isActive := true }
      ∉ get_low_stock_products dbNoInv ∧
    get_low_stock_products dbNoInv = [] := by
  decide

/-- C5 amended: a product is reported by the low-stock scan iff it is
active, has at least one inventory row, and the unclamped sum of
(quantity_on_hand - reserved_quantity) over its rows is at most its
reorder point; each reported alert carries the clamped total available
and a shortage of max(0, reorderPoint - totalAvailable). -/
theorem get_low_stock_spec (db : DB) (p : Product) :
    (p ∈ get_low_stock_products db ↔
      p ∈ db.products ∧
        (((db.inventory.filter (fun i => decide (i.productId = p.id))).isEmpty = false
          ∧ sumDiff db p.id ≤ p.reorderPoint)
          ∧ p.isActive = true)) ∧
    (∀ a ∈ get_low_stock_alerts db,
      a.currentAvailable = get_total_available_quantity db a.productId ∧
      a.shortage = max 0 (a.reorderPoint - get_total_available_quantity db a.productId)) := by
  constructor
  · unfold get_low_stock_products
    rw [List.mem_filter]
    simp only [Bool.and_eq_true, Bool.not_eq_true', decide_eq_true_eq]
  · intro a ha
    unfold get_low_stock_alerts at ha
    obtain ⟨p2, hp2, rfl⟩ := List.mem_map.mp ha
    exact ⟨rfl, rfl⟩

/-- Witness for C5 at a concrete input: the single product of `dbSmall`
(7 available ≤ reorder point 10) instantiates both parts of the amended
claim. -/
theorem get_low_stock_spec_witness :
    (({ id := 1, supplierId := none, reorderPoint := 10, isActive := true } : Product)
        ∈ get_low_stock_products dbSmall ↔
      ({ id := 1, supplierId := none, reorderPoint := 10, isActive := true } : Product)
        ∈ dbSmall.products ∧
        (((dbSmall.inventory.filter (fun i => decide (i.productId = 1))).isEmpty = false
          ∧ sumDiff dbSmall 1 ≤ 10)
          ∧ true = true)) ∧
    (∀ a ∈ get_low_stock_alerts dbSmall,
      a.currentAvailable = get_total_available_quantity dbSmall a.productId ∧
      a.shortage = max 0 (a.reorderPoint - get_total_available_quantity dbSmall a.productId)) :=
  get_low_stock_spec dbSmall
    { id := 1, supplierId := none, reorderPoint := 10, isActive := true }

theorem round2_zero : round2 0 = 0 := by
  unfold round2
  norm_num

theorem round2_pos (x : ℚ) (hx : 1 / 20 ≤ x) : 0 < round2 x := by
  unfold round2
  have h5 : (5 : ℤ) ≤ round (x * 100) := by
    rw [round_eq]
    refine Int.le_floor.mpr ?_
    push_cast
    linarith
  have h0 : (0 : ℚ) < ((round (x * 100) : ℤ) : ℚ) := by
    exact_mod_cast lt_of_lt_of_le (by norm_num) h5
  exact div_pos h0 (by norm_num)

theorem activity_score_lb (r : Nat) (hr : 1 ≤ r) :
    1 / 10 ≤ activity_score r := by
  unfold activity_score
  refine le_min (by norm_num) ?_
  have : (1 : ℚ) ≤ (r : ℚ) := by exact_mod_cast hr
  linarith

theorem lead_time_score_nonneg (lt : Int) : 0 ≤ lead_time_score lt :=
  le_max_left 0 _

/-- C8 counterexample: a supplier with one product and zero receipts gets
score 0 from the code, while the claim's formula yields 2 for lead time
10; so the score neither follows the claimed formula here nor is 0 only
for suppliers with zero products. -/
theorem calculate_supplier_performance_zero_receipts :
    calculate_supplier_performance dbPerf 1 = some 0 ∧
    (get_supplier_products dbPerf 1).length = 1 ∧
    claimPerformanceScore 0 10 = 2 ∧
    ¬ calculate_supplier_performance dbPerf 1
        = some (claimPerformanceScore 0 10) := by
  have hscore : calculate_supplier_performance dbPerf 1 = some 0 := by
    simp only [calculate_supplier_performance,
      show findSupplier dbPerf 1 = some { id := 1, leadTimeDays := 10 } from rfl,
      show receipt_transactions dbPerf 1 = [] from rfl]
    rw [if_neg (by decide), if_neg (by decide)]
    rw [round2_zero]
  have hformula : claimPerformanceScore 0 10 = 2 := by
    unfold claimPerformanceScore round2
    norm_num
  refine ⟨hscore, by decide, hformula, ?_⟩
  rw [hscore, hformula]
  simp only [Option.some_inj]
  norm_num

/-- C8 amended: for an existing supplier the computed performance score
is the rounded average of the activity and lead-time terms when the
supplier's products have at least one receipt (IN) transaction, and 0
otherwise; in particular the score is 0 exactly when the receipt count is
0 (which includes every supplier with zero products). -/
theorem calculate_supplier_performance_spec (db : DB) (sid : Nat)
    (s : Supplier) (hfind : findSupplier db sid = some s) :
    calculate_supplier_performance db sid
      = some (if 0 < (receipt_transactions db sid).length then
          round2 ((activity_score (receipt_transactions db sid).length
            + lead_time_score s.leadTimeDays) / 2)
        else 0) ∧
    (calculate_supplier_performance db sid = some 0
      ↔ (receipt_transactions db sid).length = 0) := by
  have hposv : 0 < (receipt_transactions db sid).length →
      0 < round2 ((activity_score (receipt_transactions db sid).length
        + lead_time_score s.leadTimeDays) / 2) := by
    intro hr
    refine round2_pos _ ?_
    have ha := activity_score_lb (receipt_transactions db sid).length (by omega)
    have hl := lead_time_score_nonneg s.leadTimeDays
    linarith
  have hempty : (get_supplier_products db sid).isEmpty = true →
      receipt_transactions db sid = [] := by
    intro he
    have hnil : get_supplier_products db sid = [] := by
      cases hg : get_supplier_products db sid with
      | nil => rfl
      | cons a l =>
          rw [hg] at he
          simp at he
    unfold receipt_transactions
    rw [hnil]
    simp
  simp only [calculate_supplier_performance, hfind]
  by_cases he : (get_supplier_products db sid).isEmpty
  · rw [if_pos he]
    rw [hempty he]
    simp
  · rw [if_neg he]
    by_cases hr : 0 < (receipt_transactions db sid).length
    · rw [if_pos hr, if_pos hr]
      refine ⟨rfl, ?_⟩
      constructor
      · intro hc
        exfalso
        have hgt := hposv hr
        rw [Option.some_inj] at hc
        exact (ne_of_gt hgt) hc
      · intro hc
        exact absurd hc (by omega)
    · rw [if_neg hr, if_neg hr]
      rw [round2_zero]
      constructor
      · rfl
      · constructor
        · intro _
          omega
        · intro _
          rfl

/-- Witness for C8 at a concrete input: with one receipt and lead time
10, the score is round2((min(5, 1/10) + max(0, 5 - 1)) / 2) = 2.05, and
it is nonzero exactly because the receipt count is nonzero. -/
theorem calculate_supplier_performance_spec_witness :
    calculate_supplier_performance dbPerfIn 1
      = some (if 0 < (receipt_transactions dbPerfIn 1).length then
          round2 ((activity_score (receipt_transactions dbPerfIn 1).length
            + lead_time_score (10 : Int)) / 2)
        else 0) ∧
    (calculate_supplier_performance dbPerfIn 1 = some 0
      ↔ (receipt_transactions dbPerfIn 1).length = 0) :=
  calculate_supplier_performance_spec dbPerfIn 1
    { id := 1, leadTimeDays := 10 } (by decide)
